import Mathlib

/-!
Verification development for the iris MLOps training-and-serving repository.

The repository trains a classifier, logs runs to an MLFlow tracking store
(src/train.py, src/src/mlflow_utils.py), and serves predictions over FastAPI
(src/serve.py) with Prometheus instrumentation (src/src/prometheus_metrics.py).

We shallowly embed the core: the tracking store interface and the run resolver
(get_latest_run), the prediction path (make_prediction and the predict
handler), the startup state transition, the request middleware, and the
metrics recorder. External collaborators (MLFlow store, sklearn model,
Prometheus backend) are modelled through the interfaces the code uses:
the store as lists of experiments and runs, the model as abstract predict and
predict_proba functions on a sample, the metrics backend as an abstract sink
whose operations may fail. Python and numpy sequence indexing, which accepts
negative indices by wrapping from the end, is modelled faithfully by pyGet.
-/

namespace MLOps

/-- Decidable equality on Except results, componentwise. -/
instance {ε α : Type} [DecidableEq ε] [DecidableEq α] :
    DecidableEq (Except ε α) := fun a b =>
  match a, b with
  | .error e, .error f =>
      if h : e = f then .isTrue (by rw [h]) else .isFalse (by simp [h])
  | .error _, .ok _ => .isFalse (by simp)
  | .ok _, .error _ => .isFalse (by simp)
  | .ok x, .ok y =>
      if h : x = y then .isTrue (by rw [h]) else .isFalse (by simp [h])

/-- Feature field names, from src/src/config.py FEATURE_NAMES. -/
def FEATURE_NAMES : List String :=
  ["sepal_length", "sepal_width", "petal_length", "petal_width"]

/-- Ordered class-name list, from src/src/config.py CLASS_NAMES. -/
def CLASS_NAMES : List String := ["setosa", "versicolor", "virginica"]

/-- Experiment name, from src/src/config.py MLFLOW_EXPERIMENT_NAME. -/
def MLFLOW_EXPERIMENT_NAME : String := "iris_classification"

/-- A tracked training run: its store-assigned id and start time. -/
structure Run where
  run_id : String
  start_time : Int
  deriving DecidableEq, Repr

/-- An experiment: unique name and store-assigned id. -/
structure Experiment where
  name : String
  experiment_id : Nat
  deriving DecidableEq, Repr

/-- Tracking store state: registered experiments, and logged runs tagged with
the id of the experiment they belong to, in logging order. -/
structure TrackingStore where
  experiments : List Experiment
  runs : List (Nat × Run)
  deriving Repr

/-- Store lookup mlflow.get_experiment_by_name: find the experiment with the
given name, None when absent. -/
def get_experiment_by_name (store : TrackingStore) (name : String) :
    Option Experiment :=
  store.experiments.find? (fun e => e.name == name)

/-- Runs logged under a given experiment id, in logging order. -/
def runsOf (store : TrackingStore) (eid : Nat) : List Run :=
  (store.runs.filter (fun p => p.1 == eid)).map Prod.snd

/-- Ordering used by the resolver query: descending by start time
(order_by start_time DESC). -/
def startDesc (a b : Run) : Prop := b.start_time ≤ a.start_time

instance : DecidableRel startDesc := fun a b =>
  inferInstanceAs (Decidable (b.start_time ≤ a.start_time))

instance : IsTotal Run startDesc :=
  ⟨fun a b => Int.le_total b.start_time a.start_time⟩

instance : IsTrans Run startDesc :=
  ⟨fun _ _ _ hab hbc => le_trans hbc hab⟩

/-- Store query mlflow.search_runs with order_by start_time DESC and
max_results: sort the runs of the experiment descending by start time and
return at most max_results of them. -/
def search_runs (store : TrackingStore) (eid : Nat) (max_results : Nat) :
    List Run :=
  (List.insertionSort startDesc (runsOf store eid)).take max_results

/-- Resolver get_latest_run from src/src/mlflow_utils.py: look the experiment
up by name; if absent return none; otherwise query its runs ordered descending
by start time with max_results 1 and return the first, none when there are no
runs. -/
def get_latest_run (store : TrackingStore) (experiment_name : String) :
    Option Run :=
  match get_experiment_by_name store experiment_name with
  | none => none
  | some experiment => (search_runs store experiment.experiment_id 1).head?

/-- Python and numpy sequence indexing on a list: a nonnegative index selects
positionally and raises IndexError (none) past the end; a negative index wraps
from the end, selecting length + i when that is in range. -/
def pyGet {α : Type} (xs : List α) (i : Int) : Option α :=
  if i < 0 then
    if h : 0 ≤ (xs.length : Int) + i ∧ ((xs.length : Int) + i).toNat < xs.length
    then some (xs.get ⟨((xs.length : Int) + i).toNat, h.2⟩)
    else none
  else
    if h : i.toNat < xs.length then some (xs.get ⟨i.toNat, h⟩)
    else none

/-- Abstract loaded classifier (the ModelHandle): what the serving code uses
of it, namely predict and predict_proba on a single sample. The predicted
index is an arbitrary integer; nothing forces it into the range of the
probability vector or of the class-name list. -/
structure Model where
  predict : List Rat → Int
  predict_proba : List Rat → List Rat

/-- Failure modes of the predict handler, mutually distinct by construction:
modelNotLoaded for the missing-model guard, indexError for a sequence index
out of range, metricsError for a failure propagated out of the metrics sink. -/
inductive PredictError where
  | modelNotLoaded : PredictError
  | indexError : Int → PredictError
  | metricsError : String → PredictError
  deriving DecidableEq, Repr

/-- Embedding of make_prediction from src/src/model_utils.py: predict the
class index for the single sample, then index the probability vector of the
same sample at that predicted index (Python indexing, so an out-of-range
index raises and a negative one wraps); the confidence is exactly that
entry. -/
def make_prediction (model : Model) (features : List Rat) :
    Except PredictError (Int × Rat) :=
  let prediction := model.predict features
  let proba := model.predict_proba features
  match pyGet proba prediction with
  | none => .error (.indexError prediction)
  | some p => .ok (prediction, p)

/-- Abstract metrics sink: whether the per-class counter increment and the
confidence histogram observation succeed for a given class label. -/
structure MetricsBackend where
  inc_ok : String → Bool
  observe_ok : String → Bool

/-- Embedding of record_prediction from src/src/prometheus_metrics.py: the
counter increment, then the histogram observation, with no local exception
handler, so a failure in either call propagates to the caller. -/
def record_prediction (b : MetricsBackend) (predicted_class : String)
    (confidence : Rat) : Except PredictError Unit :=
  if b.inc_ok predicted_class then
    if b.observe_ok predicted_class then .ok ()
    else .error (.metricsError predicted_class)
  else .error (.metricsError predicted_class)

/-- Request body of the predict endpoint. -/
structure IrisFeatures where
  sepal_length : Rat
  sepal_width : Rat
  petal_length : Rat
  petal_width : Rat
  deriving DecidableEq, Repr

/-- Feature list built by the predict handler from the request body. -/
def feature_list (features : IrisFeatures) : List Rat :=
  [features.sepal_length, features.sepal_width,
   features.petal_length, features.petal_width]

/-- Response body of the predict endpoint. -/
structure PredictionResponse where
  prediction : String
  confidence : Rat
  deriving DecidableEq, Repr

/-- Embedding of the predict handler from src/serve.py: raise when the global
MODEL is absent; otherwise build the feature list, call make_prediction, map
the predicted index through CLASS_NAMES with Python indexing, call
record_prediction with no local handler, and return the response. Every
raised exception propagates as an error result. -/
def predict (MODEL : Option Model) (backend : MetricsBackend)
    (features : IrisFeatures) : Except PredictError PredictionResponse :=
  match MODEL with
  | none => .error .modelNotLoaded
  | some model =>
    match make_prediction model (feature_list features) with
    | .error e => .error e
    | .ok (pred_class, confidence) =>
      match pyGet CLASS_NAMES pred_class with
      | none => .error (.indexError pred_class)
      | some species =>
        match record_prediction backend species confidence with
        | .error e => .error e
        | .ok _ => .ok { prediction := species, confidence := confidence }

/-- Readiness and health gauges set by startup. -/
structure Gauges where
  model_loaded : Int
  api_health : Int
  deriving DecidableEq, Repr

/-- Embedding of the startup hook from src/serve.py. It resolves the latest
run; when the resolver yields none it raises, and the surrounding handler
sets model_loaded and api_health to 0 and re-raises, leaving the global MODEL
absent. When a run is found, the artifact loader runs; on its failure the
same handler fires; on success the gauges are set to 1 and MODEL is set. The
result is the outcome together with the gauge state and the global MODEL. -/
def startup (store : TrackingStore)
    (load_model : String → Except String Model) :
    Except String Unit × Gauges × Option Model :=
  match get_latest_run store MLFLOW_EXPERIMENT_NAME with
  | none =>
      (.error ("Experiment " ++ MLFLOW_EXPERIMENT_NAME ++
        " not found. Run train.py first!"),
       { model_loaded := 0, api_health := 0 }, none)
  | some latest_run =>
      match load_model latest_run.run_id with
      | .error e => (.error e, { model_loaded := 0, api_health := 0 }, none)
      | .ok m => (.ok (), { model_loaded := 1, api_health := 1 }, some m)

/-- Embedding of the health endpoint from src/serve.py: a constant status
string together with whether the global MODEL is present. -/
def health (MODEL : Option Model) : String × Bool :=
  ("healthy", MODEL.isSome)

/-- Effect of one prediction_count.labels(predicted_class).inc() call on the
per-class prediction counters: an atomic increment of one labelled counter,
as supplied by the Prometheus client backend. -/
def prediction_count_inc (predicted_class : String) (s : String → Nat) :
    String → Nat :=
  fun c => if c = predicted_class then s c + 1 else s c

/-- Final per-class counters after a sequence of record_prediction counter
increments; the list is the order in which the concurrent increments reach
the shared counters (any interleaving). -/
def apply_predictions : List String → (String → Nat) → (String → Nat)
  | [], s => s
  | c :: rest, s => apply_predictions rest (prediction_count_inc c s)

/-- Observable Prometheus state touched by the request instrumentation: the
active_requests gauge, the request counter (as the log of labelled increment
events), and the request-duration histogram (as the log of labelled
observations). -/
structure MetricsState where
  active_requests : Int
  request_total : List (String × String × Int)
  duration_obs : List (String × Rat)
  deriving DecidableEq, Repr

/-- HTTP response as the middleware sees it. -/
structure Response where
  status : Int
  deriving DecidableEq, Repr

/-- Histogram observation request_duration.labels(endpoint).observe(d). -/
def request_duration_observe (endpoint : String) (d : Rat)
    (s : MetricsState) : MetricsState :=
  { s with duration_obs := s.duration_obs ++ [(endpoint, d)] }

/-- Counter increment request_count.labels(method, endpoint, status).inc(). -/
def request_count_inc (method endpoint : String) (status : Int)
    (s : MetricsState) : MetricsState :=
  { s with request_total := s.request_total ++ [(method, endpoint, status)] }

/-- Embedding of the track_metrics middleware from src/serve.py: run the
downstream handler, then observe the elapsed time into the duration histogram
and increment the request counter. It performs no other metric operation; in
particular it never touches the active_requests gauge. -/
def track_metrics (method path : String) (process_time : Rat)
    (call_next : MetricsState → Response × MetricsState) (s : MetricsState) :
    Response × MetricsState :=
  let r := call_next s
  let s2 := request_duration_observe path process_time r.2
  let s3 := request_count_inc method path r.1.status s2
  (r.1, s3)

/-- The MetricsRecorder helper from src/src/prometheus_metrics.py: an
endpoint label and an optional start timestamp, initially absent. -/
structure MetricsRecorder where
  endpoint : String
  start_time : Option Rat
  deriving DecidableEq, Repr

/-- Constructor of MetricsRecorder: start_time is initially None. -/
def MetricsRecorder.init (endpoint : String) : MetricsRecorder :=
  { endpoint := endpoint, start_time := none }

/-- MetricsRecorder.start: record the current time and increment the
active_requests gauge. -/
def MetricsRecorder.start (r : MetricsRecorder) (now : Rat)
    (s : MetricsState) : MetricsRecorder × MetricsState :=
  ({ r with start_time := some now },
   { s with active_requests := s.active_requests + 1 })

/-- MetricsRecorder.end: when start_time is truthy (present and nonzero,
Python truthiness), observe the duration and increment the request counter
with method POST; in every case decrement the active_requests gauge. -/
def MetricsRecorder.end_ (r : MetricsRecorder) (status : Int) (now : Rat)
    (s : MetricsState) : MetricsState :=
  let s1 :=
    match r.start_time with
    | some t0 =>
        if t0 ≠ 0 then
          request_count_inc "POST" r.endpoint status
            (request_duration_observe r.endpoint (now - t0) s)
        else s
    | none => s
  { s1 with active_requests := s1.active_requests - 1 }

/-! Concrete instances used by witnesses and counterexamples. -/

/-- Demo experiment for the resolver witnesses. -/
def demoExp : Experiment := { name := "iris_classification", experiment_id := 0 }

/-- Demo run with the earlier start time. -/
def demoRun1 : Run := { run_id := "r1", start_time := 10 }

/-- Demo run with the later start time. -/
def demoRun2 : Run := { run_id := "r2", start_time := 20 }

/-- Demo store in which the later-started run was logged first. -/
def demoStore : TrackingStore :=
  { experiments := [demoExp], runs := [(0, demoRun2), (0, demoRun1)] }

/-- Store with no experiments at all. -/
def emptyStore : TrackingStore := { experiments := [], runs := [] }

/-- Store whose only experiment has zero runs. -/
def noRunsStore : TrackingStore := { experiments := [demoExp], runs := [] }

/-- Metrics backend whose operations always succeed. -/
def okBackend : MetricsBackend :=
  { inc_ok := fun _ => true, observe_ok := fun _ => true }

/-- Metrics backend whose counter increment always fails. -/
def failBackend : MetricsBackend :=
  { inc_ok := fun _ => false, observe_ok := fun _ => true }

/-- Concrete request body used in witnesses. -/
def f0 : IrisFeatures :=
  { sepal_length := 5, sepal_width := 3, petal_length := 1, petal_width := 0 }

/-- Model predicting index 0 while assigning a larger probability mass to
index 1: its confidence differs from the maximum probability entry. -/
def mLowConf : Model :=
  { predict := fun _ => 0, predict_proba := fun _ => [1, 3] }

/-- Model always predicting class 0 with probability vector [1, 0, 0]. -/
def mSetosa : Model :=
  { predict := fun _ => 0, predict_proba := fun _ => [1, 0, 0] }

/-- Model predicting the negative index -1. -/
def mNeg : Model :=
  { predict := fun _ => -1, predict_proba := fun _ => [9, 1] }

/-- Model predicting index 5, past the end of the class-name list, with a
probability vector long enough for the confidence lookup to succeed. -/
def mOut : Model :=
  { predict := fun _ => 5, predict_proba := fun _ => [1, 1, 1, 1, 1, 1] }

/-- Handler that reports the active_requests gauge it observes while
running, leaving the state unchanged. -/
def probe_handler : MetricsState → Response × MetricsState :=
  fun s => ({ status := s.active_requests }, s)

/-- Initial metrics state: gauge at zero, no recorded events. -/
def s0 : MetricsState :=
  { active_requests := 0, request_total := [], duration_obs := [] }

/-- Artifact loader that always fails, for startup witnesses. -/
def loadFail : String → Except String Model := fun _ => .error "load failed"

/-! Theorems. -/

/-- Head of the descending insertion sort is the strict maximum of the list
when one exists. -/
theorem insertionSort_head_strict_max (l : List Run) (r : Run)
    (hr : r ∈ l)
    (hmax : ∀ s ∈ l, s ≠ r → s.start_time < r.start_time) :
    (List.insertionSort startDesc l).head? = some r := by
  have hsorted := List.sorted_insertionSort startDesc l
  cases hs : List.insertionSort startDesc l with
  | nil =>
      have hmem : r ∈ List.insertionSort startDesc l :=
        (List.mem_insertionSort startDesc).2 hr
      rw [hs] at hmem
      exact absurd hmem (List.not_mem_nil r)
  | cons h t =>
      have hmemh : h ∈ l := by
        have hh : h ∈ List.insertionSort startDesc l := by
          rw [hs]; exact List.mem_cons_self h t
        exact (List.mem_insertionSort startDesc).1 hh
      have hrmem : r ∈ h :: t := by
        rw [← hs]; exact (List.mem_insertionSort startDesc).2 hr
      rcases List.mem_cons.1 hrmem with hrh | hrt
      · rw [hrh]
        rfl
      · rw [hs] at hsorted
        have hle : startDesc h r := List.rel_of_sorted_cons hsorted r hrt
        have hle2 : r.start_time ≤ h.start_time := hle
        by_cases heq : h = r
        · rw [heq]
          rfl
        · exact absurd (hmax h hmemh heq) (not_lt.2 hle2)

/-- C1: for an experiment whose logged runs have pairwise comparable start
times with a strict maximum (in particular, N runs with strictly increasing
start times), get_latest_run returns the run with the greatest start time,
regardless of the order in which the runs were logged to the store: it sorts
the runs of the experiment descending by start time and returns the first. -/
theorem get_latest_run_returns_greatest (store : TrackingStore)
    (ename : String) (e : Experiment) (r : Run)
    (he : get_experiment_by_name store ename = some e)
    (hr : r ∈ runsOf store e.experiment_id)
    (hmax : ∀ s ∈ runsOf store e.experiment_id, s ≠ r →
      s.start_time < r.start_time) :
    get_latest_run store ename = some r := by
  have hhead := insertionSort_head_strict_max (runsOf store e.experiment_id)
    r hr hmax
  unfold get_latest_run search_runs
  rw [he]
  show (List.take 1
    (List.insertionSort startDesc (runsOf store e.experiment_id))).head?
    = some r
  cases hs : List.insertionSort startDesc (runsOf store e.experiment_id) with
  | nil => rw [hs] at hhead; exact absurd hhead (by simp)
  | cons h t =>
      rw [hs] at hhead
      simpa using hhead

/-- Witness for C1: in a store where the later-started run was logged first,
the resolver returns the run with the greater start time. -/
theorem get_latest_run_returns_greatest_witness :
    get_latest_run demoStore "iris_classification" = some demoRun2 :=
  get_latest_run_returns_greatest demoStore "iris_classification" demoExp
    demoRun2 (by decide) (by decide) (by decide)

/-- C2: the confidence returned by make_prediction is exactly the entry of
the probability vector at the predicted index, and on the model mLowConf
that entry (1) is not the maximum entry (3) of the vector, so confidence is
not generically the maximum. -/
theorem make_prediction_confidence_is_indexed_probability :
    (∀ (m : Model) (f : List Rat) (i : Int) (c : Rat),
        make_prediction m f = .ok (i, c) →
        i = m.predict f ∧ pyGet (m.predict_proba f) i = some c) ∧
    (make_prediction mLowConf (feature_list f0) = .ok (0, 1) ∧
      (3 : Rat) ∈ mLowConf.predict_proba (feature_list f0) ∧ (1 : Rat) < 3) := by
  constructor
  · intro m f i c h
    simp only [make_prediction] at h
    cases hp : pyGet (m.predict_proba f) (m.predict f) with
    | none =>
        rw [hp] at h
        exact absurd h (by simp)
    | some p =>
        rw [hp] at h
        simp only [Except.ok.injEq, Prod.mk.injEq] at h
        refine ⟨h.1.symm, ?_⟩
        rw [← h.1, ← h.2]
        exact hp
  · exact ⟨by decide, by decide, by decide⟩

/-- Witness for C2: the indexed-probability equation instantiated on the
model mLowConf at a concrete sample. -/
theorem make_prediction_confidence_witness :
    (0 : Int) = mLowConf.predict (feature_list f0) ∧
    pyGet (mLowConf.predict_proba (feature_list f0)) 0 = some 1 :=
  make_prediction_confidence_is_indexed_probability.1 mLowConf
    (feature_list f0) 0 1 (by decide)

/-- C3: when the resolver yields none, startup results in an error (the
process aborts instead of reaching READY), the model_loaded and api_health
gauges are set to 0 before the error propagates, and the global MODEL
remains absent. -/
theorem startup_notfound_never_ready (store : TrackingStore)
    (load_model : String → Except String Model)
    (h : get_latest_run store MLFLOW_EXPERIMENT_NAME = none) :
    startup store load_model =
      (.error ("Experiment " ++ MLFLOW_EXPERIMENT_NAME ++
        " not found. Run train.py first!"),
       { model_loaded := 0, api_health := 0 }, none) := by
  unfold startup
  rw [h]

/-- Witness for C3: startup on the empty store fails with gauges at 0 and no
model. -/
theorem startup_notfound_witness :
    startup emptyStore loadFail =
      (.error ("Experiment " ++ MLFLOW_EXPERIMENT_NAME ++
        " not found. Run train.py first!"),
       { model_loaded := 0, api_health := 0 }, none) :=
  startup_notfound_never_ready emptyStore loadFail (by decide)

/-- C4: get_latest_run is a total function; it returns none both when the
experiment name does not exist in the store and when the experiment exists
but has zero runs. -/
theorem get_latest_run_notfound_total (store : TrackingStore)
    (name : String) :
    (get_experiment_by_name store name = none →
      get_latest_run store name = none) ∧
    (∀ e : Experiment, get_experiment_by_name store name = some e →
      runsOf store e.experiment_id = [] →
      get_latest_run store name = none) := by
  constructor
  · intro h
    unfold get_latest_run
    rw [h]
  · intro e he hrun
    unfold get_latest_run search_runs
    rw [he]
    show (List.take 1
      (List.insertionSort startDesc (runsOf store e.experiment_id))).head?
      = none
    rw [hrun]
    rfl

/-- Witness for C4: none on a store without the experiment, and none on a
store whose experiment has zero runs. -/
theorem get_latest_run_notfound_witness :
    get_latest_run emptyStore "iris_classification" = none ∧
    get_latest_run noRunsStore "iris_classification" = none :=
  ⟨(get_latest_run_notfound_total emptyStore "iris_classification").1
      (by decide),
   (get_latest_run_notfound_total noRunsStore "iris_classification").2
      demoExp (by decide) (by decide)⟩

/-- C5: a predict call while the global MODEL is absent fails with the
modelNotLoaded error, which is distinct by construction from the
index-mapping and metrics failure modes, and the call never returns a
prediction response. -/
theorem predict_without_model_fails_model_not_loaded :
    (∀ (b : MetricsBackend) (f : IrisFeatures),
        predict none b f = .error .modelNotLoaded) ∧
    (∀ i : Int, PredictError.modelNotLoaded ≠ PredictError.indexError i) ∧
    (∀ l : String,
        PredictError.modelNotLoaded ≠ PredictError.metricsError l) ∧
    (∀ (b : MetricsBackend) (f : IrisFeatures) (r : PredictionResponse),
        predict none b f ≠ .ok r) := by
  refine ⟨fun b f => rfl, fun i h => ?_, fun l h => ?_, fun b f r h => ?_⟩
  · exact PredictError.noConfusion h
  · exact PredictError.noConfusion h
  · exact Except.noConfusion h

/-- Witness for C5: a concrete not-ready predict call fails with
modelNotLoaded and is not a success. -/
theorem predict_without_model_witness :
    predict none okBackend f0 = .error .modelNotLoaded ∧
    predict none okBackend f0 ≠
      .ok { prediction := "setosa", confidence := 1 } :=
  ⟨predict_without_model_fails_model_not_loaded.1 okBackend f0,
   predict_without_model_fails_model_not_loaded.2.2.2 okBackend f0 _⟩

/-- Counterexample for C6: on a concrete request whose model prediction and
class-name mapping both succeed, a failure of the metrics counter increment
makes the whole predict call fail, so a metrics-recording failure is not
swallowed and does fail the request it observes. -/
theorem metrics_failure_fails_request_cex :
    make_prediction mSetosa (feature_list f0) = .ok (0, 1) ∧
    pyGet CLASS_NAMES (0 : Int) = some "setosa" ∧
    predict (some mSetosa) failBackend f0 =
      .error (.metricsError "setosa") := by
  exact ⟨by decide, by decide, by decide⟩

/-- C6 amended: a failure raised while recording prediction metrics
propagates out of the predict handler and fails the request it is observing;
neither record_prediction nor the handler installs a local handler for it. -/
theorem metrics_failure_propagates (m : Model) (b : MetricsBackend)
    (f : IrisFeatures) (i : Int) (c : Rat) (sp : String) (e : PredictError)
    (h1 : make_prediction m (feature_list f) = .ok (i, c))
    (h2 : pyGet CLASS_NAMES i = some sp)
    (h3 : record_prediction b sp c = .error e) :
    predict (some m) b f = .error e := by
  simp [predict, h1, h2, h3]

/-- Witness for C6 amended: the propagation theorem instantiated on the
always-failing backend. -/
theorem metrics_failure_propagates_witness :
    predict (some mSetosa) failBackend f0 =
      .error (.metricsError "setosa") :=
  metrics_failure_propagates mSetosa failBackend f0 0 1 "setosa"
    (.metricsError "setosa") (by decide) (by decide) (by decide)

/-- Counterexample for C7: a probe handler that reports the active_requests
gauge it observes sees 0, not 1, while running under the track_metrics
middleware started from the zero state, and the gauge is still 0 after the
request: the middleware increments no in-flight gauge at request start. -/
theorem track_metrics_ignores_active_requests_cex :
    (track_metrics "POST" "/predict" 1 probe_handler s0).1.status = 0 ∧
    (track_metrics "POST" "/predict" 1 probe_handler s0).2.active_requests
      = 0 ∧
    s0.active_requests = 0 := by
  exact ⟨by decide, by decide, by decide⟩

/-- C7 amended: the track_metrics middleware of the serving process never
touches active_requests (the gauge after the middleware equals whatever the
downstream handler left); the increment and decrement live only in the
unused MetricsRecorder helper, whose start increments the gauge and whose
end restores it after a start/end pair. -/
theorem active_requests_only_in_metrics_recorder :
    (∀ (method path : String) (t : Rat)
        (call_next : MetricsState → Response × MetricsState)
        (s : MetricsState),
        (track_metrics method path t call_next s).2.active_requests =
          ((call_next s).2).active_requests) ∧
    (∀ (r : MetricsRecorder) (now : Rat) (s : MetricsState),
        ((MetricsRecorder.start r now s).2).active_requests =
          s.active_requests + 1) ∧
    (∀ (r : MetricsRecorder) (status : Int) (now1 now2 : Rat)
        (s : MetricsState),
        (MetricsRecorder.end_ (MetricsRecorder.start r now1 s).1 status now2
          (MetricsRecorder.start r now1 s).2).active_requests =
          s.active_requests) := by
  refine ⟨fun method path t call_next s => rfl, fun r now s => rfl,
    fun r status now1 now2 s => ?_⟩
  unfold MetricsRecorder.end_ MetricsRecorder.start
  by_cases h : now1 = 0 <;>
    simp [h, request_count_inc, request_duration_observe]

/-- Counterexample for C8: the model mNeg predicts index -1, which lies
outside the range 0..2, yet the request succeeds, returning the in-range
name virginica: Python list indexing silently wraps a negative index instead
of failing. -/
theorem negative_index_wraps_cex :
    mNeg.predict (feature_list f0) = -1 ∧
    ¬ ((0 : Int) ≤ -1 ∧ (-1 : Int) ≤ 2) ∧
    predict (some mNeg) okBackend f0 =
      .ok { prediction := "virginica", confidence := 1 } ∧
    "virginica" ∈ CLASS_NAMES := by
  exact ⟨by decide, by decide, by decide, by decide⟩

/-- C8 amended: mapping the predicted index through CLASS_NAMES uses Python
list indexing: every index at least 3 and every index below -3 is out of
range and makes the request fail with the index error for that index, while
an index between -3 and -1 silently wraps to an in-range name. -/
theorem class_index_mapping_amended :
    (∀ i : Int, 3 ≤ i → pyGet CLASS_NAMES i = none) ∧
    (∀ i : Int, i < -3 → pyGet CLASS_NAMES i = none) ∧
    (∀ i : Int, -3 ≤ i → i < 0 →
      ∃ s, pyGet CLASS_NAMES i = some s ∧ s ∈ CLASS_NAMES) ∧
    (∀ (m : Model) (b : MetricsBackend) (f : IrisFeatures) (i : Int)
        (c : Rat),
        make_prediction m (feature_list f) = .ok (i, c) →
        pyGet CLASS_NAMES i = none →
        predict (some m) b f = .error (.indexError i)) := by
  have hlen : CLASS_NAMES.length = 3 := rfl
  refine ⟨?_, ?_, ?_, ?_⟩
  · intro i h
    unfold pyGet
    rw [if_neg (by omega), dif_neg (by rw [hlen]; omega)]
  · intro i h
    unfold pyGet
    rw [if_pos (by omega), dif_neg (by rw [hlen]; omega)]
  · intro i h1 h2
    have hcase : i = -3 ∨ i = -2 ∨ i = -1 := by omega
    rcases hcase with rfl | rfl | rfl
    · exact ⟨"setosa", by decide, by decide⟩
    · exact ⟨"versicolor", by decide, by decide⟩
    · exact ⟨"virginica", by decide, by decide⟩
  · intro m b f i c h1 h2
    simp [predict, h1, h2]

/-- Witness for C8 amended: index 5 and index -5 are rejected, index -1
wraps, and a model predicting 5 makes the request fail with the index error
for 5. -/
theorem class_index_mapping_witness :
    pyGet CLASS_NAMES 5 = none ∧
    pyGet CLASS_NAMES (-5) = none ∧
    (∃ s, pyGet CLASS_NAMES (-1) = some s ∧ s ∈ CLASS_NAMES) ∧
    predict (some mOut) okBackend f0 = .error (.indexError 5) :=
  ⟨class_index_mapping_amended.1 5 (by decide),
   class_index_mapping_amended.2.1 (-5) (by decide),
   class_index_mapping_amended.2.2.1 (-1) (by decide) (by decide),
   class_index_mapping_amended.2.2.2 mOut okBackend f0 5 1
     (by decide) (by decide)⟩

/-- C9: applying any interleaving of atomic per-class counter increments, as
supplied by the Prometheus backend, yields final per-class counters equal to
the initial value plus the exact number of predictions of that class: no
update is lost and none is double counted, whatever order the concurrent
increments reach the shared counters in. -/
theorem prediction_counters_exact_under_interleaving
    (events : List String) (s : String → Nat) (c : String) :
    apply_predictions events s c = s c + events.count c := by
  induction events generalizing s with
  | nil => simp [apply_predictions]
  | cons e rest ih =>
      simp only [apply_predictions]
      rw [ih]
      simp only [prediction_count_inc, List.count_cons]
      by_cases h : c = e
      · subst h
        rw [if_pos rfl, beq_self_eq_true, if_pos rfl]
        omega
      · have hb : (e == c) = false := beq_eq_false_iff_ne.2 (Ne.symm h)
        rw [if_neg h, hb, if_neg (by simp)]
        omega

/-- C10: in every process state the health endpoint reports the constant
status healthy together with whether the global MODEL is present; in
particular with no model loaded it still reports healthy with model_loaded
false. -/
theorem health_always_healthy_reports_model_presence :
    (∀ MODEL : Option Model,
        (health MODEL).1 = "healthy" ∧ (health MODEL).2 = MODEL.isSome) ∧
    (health none).1 = "healthy" ∧ (health none).2 = false :=
  ⟨fun _ => ⟨rfl, rfl⟩, rfl, rfl⟩

end MLOps
